import Mathlib

/-!
Verification development for the rag-pipeline repository.

The retrieval-answer pipeline (src/main.py `query_rag`, `query_document`,
`upload_file`), the batch CLI query path (src/query_data.py `main`) and the
batch index builder (src/create_database.py `save_to_chroma`) are shallowly
embedded below.  External collaborators (the vector index's similarity
search and the completion model) are passed in as function parameters;
relevance scores are modelled as rationals, which preserves all order
comparisons the code performs against the 0.7 threshold.
-/

namespace RagPipeline

/-- A langchain document: page content plus a metadata dictionary
(modelled as an association list). -/
structure Document where
  page_content : String
  metadata : List (String × String)
deriving DecidableEq

/-- Embedding of Python dict.get with default None. -/
def metaGet (m : List (String × String)) (k : String) : Option String :=
  match m with
  | [] => none
  | (k', v) :: rest => if k' = k then some v else metaGet rest k

/-- The vector index's `similarity_search_with_relevance_scores`:
query text and k, returning (document, relevance score) pairs. -/
abbrev SearchFn := String → Nat → List (Document × ℚ)

/-- The completion model: prompt in, generated text out. -/
abbrev CompleteFn := String → String

/-- The arguments of one ChatOpenAI completion submission: the prompt,
the model-name argument if passed, and the temperature argument if passed
(`none` means the constructor argument was omitted). -/
structure CompletionCall where
  prompt : String
  modelArg : Option String
  temperature : Option ℚ
deriving DecidableEq

/-- The default sampling temperature of the installed langchain_openai
ChatOpenAI class, used when no temperature argument is passed. -/
def chatOpenAIDefaultTemperature : ℚ := 7/10

/-- The sampling temperature a completion call actually runs with:
the explicit argument, or the library default when omitted. -/
def effectiveTemperature (c : CompletionCall) : ℚ :=
  c.temperature.getD chatOpenAIDefaultTemperature

/-- One entry of the web answer's sources list, as built in `query_rag`:
content preview, score, and the chunk's metadata. -/
structure SourceEntry where
  content : String
  score : ℚ
  metadata : List (String × String)
deriving DecidableEq

/-- The result of `query_rag`, together with the completion call it
issued (`none` when the completion API was never invoked). -/
structure RagResult where
  answer : String
  sources : List SourceEntry
  completion : Option CompletionCall
deriving DecidableEq

/-- The literal PROMPT_TEMPLATE string of src/main.py and
src/query_data.py. -/
def PROMPT_TEMPLATE : String :=
"\nAnswer the question based on the following context, try to elaborate some more:\n\n{context}\n\n---\n\nAnswer the question: {question}\n"

/-- The template text before the context field. -/
def promptHead : String :=
"\nAnswer the question based on the following context, try to elaborate some more:\n\n"

/-- The template text between the context and question fields. -/
def promptMid : String := "\n\n---\n\nAnswer the question: "

/-- The template text after the question field. -/
def promptTail : String := "\n"

/-- Template substitution: the context and question dropped into
PROMPT_TEMPLATE's two fields. -/
def formatPrompt (context question : String) : String :=
  promptHead ++ context ++ promptMid ++ question ++ promptTail

/-- The delimiter joining retrieved chunk texts into the context. -/
def contextDelimiter : String := "\n\n---\n\n"

/-- Embedding of the source preview truncation:
content[:200] + "..." when longer than 200 characters. -/
def truncPreview (s : String) : String :=
  if s.length > 200 then s.take 200 ++ "..." else s

/-- The canned no-match answer of `query_rag`. -/
def noMatchAnswer : String :=
  "Unable to find relevant information in the document to answer your question."

/-- Embedding of src/main.py `query_rag`: search with k=3, gate on the
top score against 0.7, else build the context, format the prompt, invoke
the model at temperature 0 and collect the sources. -/
def query_rag (search : SearchFn) (llm : CompleteFn) (query_text : String) :
    RagResult :=
  let results := search query_text 3
  match results with
  | [] => { answer := noMatchAnswer, sources := [], completion := none }
  | (_, s0) :: _ =>
    if s0 < 7/10 then
      { answer := noMatchAnswer, sources := [], completion := none }
    else
      let context_text :=
        String.intercalate contextDelimiter (results.map (fun p => p.1.page_content))
      let prompt := formatPrompt context_text query_text
      let response := llm prompt
      { answer := response,
        sources := results.map (fun p =>
          { content := truncPreview p.1.page_content
            score := p.2
            metadata := p.1.metadata }),
        completion := some { prompt := prompt, modelArg := some "gpt-3.5-turbo", temperature := some 0 } }

/-- Observable outcome of one run of the CLI query command
(src/query_data.py `main`): the search it issued, the completion call if
any, and what it printed. -/
structure CLIOutcome where
  searched : Option (String × Nat)
  completion : Option CompletionCall
  printedNoMatch : Bool
  printedSources : Option (List (Option String))
  printedAnswer : Option String
deriving DecidableEq

/-- Embedding of src/query_data.py `main` after argument parsing:
search with k=3, gate on the top score, else format the prompt, invoke
ChatOpenAI() with no model or temperature argument, and print the answer
and the source identifiers. -/
def cli_main (search : SearchFn) (llm : CompleteFn) (query_text : String) :
    CLIOutcome :=
  let results := search query_text 3
  match results with
  | [] =>
    { searched := some (query_text, 3), completion := none,
      printedNoMatch := true, printedSources := none, printedAnswer := none }
  | (_, s0) :: _ =>
    if s0 < 7/10 then
      { searched := some (query_text, 3), completion := none,
        printedNoMatch := true, printedSources := none, printedAnswer := none }
    else
      let context_text :=
        String.intercalate contextDelimiter (results.map (fun p => p.1.page_content))
      let prompt := formatPrompt context_text query_text
      let response := llm prompt
      { searched := some (query_text, 3),
        completion := some { prompt := prompt, modelArg := none, temperature := none },
        printedNoMatch := false,
        printedSources := some (results.map (fun p => metaGet p.1.metadata "source")),
        printedAnswer := some response }

/-- A Chroma database handle, abstracted to its similarity search. -/
structure DB where
  search : SearchFn

/-- The process-wide mutable state of the web app:
the current database and current filename globals. -/
structure AppState where
  current_db : Option DB
  current_filename : Option String

/-- The QueryResponse pydantic model. -/
structure QueryResponse where
  success : Bool
  answer : String
  sources : List SourceEntry
  message : String

/-- Observable outcome of the /query handler: the HTTP response (error
status and detail, or the response body), whether a similarity search was
issued, and the completion call if any. -/
structure WebQueryOutcome where
  response : Except (Nat × String) QueryResponse
  searched : Bool
  completion : Option CompletionCall

/-- Embedding of Python str.strip(): remove leading and trailing
whitespace characters. -/
def pyStrip (s : String) : String :=
  String.mk (((s.data.dropWhile Char.isWhitespace).reverse.dropWhile
    Char.isWhitespace).reverse)

/-- Embedding of src/main.py `query_document`: reject when no database
is loaded, reject empty (stripped) queries, otherwise run `query_rag`. -/
def query_document (llm : CompleteFn) (st : AppState) (query : String) :
    WebQueryOutcome :=
  match st.current_db with
  | none =>
    { response := .error (400, "No document uploaded. Please upload a document first."),
      searched := false, completion := none }
  | some db =>
    if pyStrip query = "" then
      { response := .error (400, "Query cannot be empty"),
        searched := false, completion := none }
    else
      let r := query_rag db.search llm query
      { response := .ok { success := true, answer := r.answer, sources := r.sources, message := "" },
        searched := true, completion := r.completion }

/-- Embedding of Python str.lower(). -/
def pyLower (s : String) : String := String.mk (s.data.map Char.toLower)

/-- Embedding of Python str.endswith(t). -/
def pyEndsWith (s t : String) : Bool := t.data.isSuffixOf s.data

/-- An uploaded file: its client filename and its raw bytes. -/
structure UploadFile where
  filename : String
  content : List Nat

/-- The UploadResponse pydantic model. -/
structure UploadResponse where
  success : Bool
  message : String
  filename : String

/-- Outcome of `create_vector_database` on the uploaded content:
a database handle, or the exception message it raised. -/
inductive BuildResult
  | success (db : DB)
  | failure (msg : String)

/-- The vector-database builder for uploaded content, abstracted over
its external embedding and storage collaborators. -/
abbrev Builder := List Nat → BuildResult

/-- Observable outcome of one run of the /upload handler: the HTTP
response, the app state afterwards, and the lifecycle of the temporary
on-disk artifacts. -/
structure UploadTrace where
  response : Except (Nat × String) UploadResponse
  stateAfter : AppState
  tempFileCreated : Bool
  tempFileRemoved : Bool
  tempDirCreated : Bool
  tempDirRemoved : Bool
  buildAttempted : Bool

/-- Embedding of src/main.py `upload_file`: reject filenames not ending
in .md (case-insensitively) with 400; reject content over 2 MiB with
400; otherwise write the temp file, make the scratch index directory,
build the database (on failure clear current_db and answer 500), and in
the finally block unlink the temp file.  No path removes the scratch
index directory. -/
def upload_file (build : Builder) (st : AppState) (file : UploadFile) :
    UploadTrace :=
  if pyEndsWith (pyLower file.filename) ".md" = false then
    { response := .error (400, "Only Markdown (.md) files are supported"),
      stateAfter := st,
      tempFileCreated := false, tempFileRemoved := false,
      tempDirCreated := false, tempDirRemoved := false, buildAttempted := false }
  else if 2 * 1024 * 1024 < file.content.length then
    { response := .error (400, "File size must be under 2MB"),
      stateAfter := st,
      tempFileCreated := false, tempFileRemoved := false,
      tempDirCreated := false, tempDirRemoved := false, buildAttempted := false }
  else
    match build file.content with
    | .success db =>
      { response := .ok { success := true, message := "File processed successfully",
                          filename := file.filename },
        stateAfter := { current_db := some db, current_filename := some file.filename },
        tempFileCreated := true, tempFileRemoved := true,
        tempDirCreated := true, tempDirRemoved := false, buildAttempted := true }
    | .failure msg =>
      { response := .error (500, "Error processing file: " ++ msg),
        stateAfter := { current_db := none, current_filename := st.current_filename },
        tempFileCreated := true, tempFileRemoved := true,
        tempDirCreated := true, tempDirRemoved := false, buildAttempted := true }

/-- The fixed persisted index location of src/create_database.py. -/
def CHROMA_PATH : String := "chroma"

/-- The entries a persisted index holds. -/
abbrev IndexEntries := List Document

/-- The persisted filesystem state relevant to index locations:
which locations hold an index with which entries. -/
abbrev FsState := String → Option IndexEntries

/-- The filesystem operations `save_to_chroma` performs. -/
inductive FsOp
  | rmtree (path : String)
  | writeIndex (path : String) (entries : IndexEntries)

/-- Effect of one filesystem operation.  `rmtree` deletes the location;
`writeIndex` (Chroma.from_documents with a persist_directory) adds the
entries to whatever the location already holds. -/
def applyOp (fs : FsState) : FsOp → FsState
  | .rmtree p => fun q => if q = p then none else fs q
  | .writeIndex p es => fun q => if q = p then some ((fs p).getD [] ++ es) else fs q

/-- The operation sequence of src/create_database.py `save_to_chroma`:
remove CHROMA_PATH if it exists, then write the new index there. -/
def save_to_chroma_ops (fs : FsState) (chunks : IndexEntries) : List FsOp :=
  (if (fs CHROMA_PATH).isSome then [FsOp.rmtree CHROMA_PATH] else [])
    ++ [FsOp.writeIndex CHROMA_PATH chunks]

/-- Embedding of src/create_database.py `save_to_chroma`: the filesystem
after running its operation sequence. -/
def save_to_chroma (fs : FsState) (chunks : IndexEntries) : FsState :=
  (save_to_chroma_ops fs chunks).foldl applyOp fs

/-- The chunk_size configuration of the splitter (1000). -/
def chunk_size : Nat := 1000

/-- The chunk_overlap configuration of the splitter (200). -/
def chunk_overlap : Nat := 200

/-- A chunk: a contiguous slice of the document text and its
start_index offset. -/
structure Chunk where
  content : List Char
  start_index : Nat
deriving DecidableEq

/-- Modelled from the spec: the Chunker contract of the specification.
The repository delegates chunking to langchain's
RecursiveCharacterTextSplitter, whose implementation is not under src/
(src/create_database.py `split_text` and src/main.py
`create_vector_database` only configure and call it).  This model
realises the contract with the raw-character fallback: chunk start
offsets advance by chunk_size - chunk_overlap, every position of the
text is covered, and start offsets are strictly increasing. -/
def chunkStarts (L : Nat) : List Nat :=
  if L ≤ chunk_size then [0]
  else (List.range ((L - chunk_overlap) / (chunk_size - chunk_overlap) + 1)).map
    (fun i => i * (chunk_size - chunk_overlap))

/-- Modelled from the spec: the Chunker's output over one document's
text, one chunk of at most chunk_size characters per start offset. -/
def split_text (text : List Char) : List Chunk :=
  (chunkStarts text.length).map
    (fun s => { content := (text.drop s).take chunk_size, start_index := s })

/-- A search function returning nothing, for concrete instantiations. -/
def emptySearch : SearchFn := fun _ _ => []

/-- A sample document for concrete instantiations. -/
def sampleDoc : Document :=
  { page_content := "Alice met the White Rabbit.",
    metadata := [("source", "data/books2/alice.md")] }

/-- A search function returning one result above the threshold, for
concrete instantiations. -/
def hitSearch : SearchFn := fun _ _ => [(sampleDoc, 9/10)]

/-- A completion function echoing its prompt, for concrete
instantiations. -/
def idLlm : CompleteFn := fun p => p

/-- A builder that always succeeds, for concrete instantiations. -/
def okBuild : Builder := fun _ => .success { search := emptySearch }

/-- A builder that always raises, for concrete instantiations. -/
def failBuild : Builder := fun _ => .failure "boom"

/-- C1: whenever the similarity search returns no results or the first
result's score is below 0.7, the web path returns the canned no-match
answer with empty sources and no completion call, and the CLI path
prints the canned no-match message, prints no sources, and issues no
completion call. -/
theorem relevance_gate_no_completion (search : SearchFn) (llm : CompleteFn)
    (q : String)
    (hlow : ∀ d s t, search q 3 = (d, s) :: t → s < 7/10) :
    query_rag search llm q
        = { answer := noMatchAnswer, sources := [], completion := none } ∧
    (cli_main search llm q).completion = none ∧
    (cli_main search llm q).printedNoMatch = true ∧
    (cli_main search llm q).printedSources = none := by
  rcases hsq : search q 3 with _ | ⟨⟨d, s⟩, t⟩
  · simp [query_rag, cli_main, hsq]
  · have hs := hlow d s t hsq
    simp [query_rag, cli_main, hsq, hs]

/-- Witness: C1's gate hypothesis holds for the empty search. -/
theorem relevance_gate_no_completion_witness :
    (∀ d s t, emptySearch "why" 3 = (d, s) :: t → s < 7/10) ∧
    (query_rag emptySearch idLlm "why"
        = { answer := noMatchAnswer, sources := [], completion := none } ∧
      (cli_main emptySearch idLlm "why").completion = none ∧
      (cli_main emptySearch idLlm "why").printedNoMatch = true ∧
      (cli_main emptySearch idLlm "why").printedSources = none) := by
  refine ⟨fun d s t h => by simp [emptySearch] at h, ?_⟩
  exact relevance_gate_no_completion emptySearch idLlm "why"
    (fun d s t h => by simp [emptySearch] at h)

/-- C2: when the top score passes the 0.7 gate, the returned sources
list is exactly one entry per retrieved result in retrieval order, each
carrying the truncated content preview, the score and the chunk's
metadata; its length is min 3 (number of results); and, given the
index's contract that results come back sorted by descending score, the
sources are sorted by descending score. -/
theorem answer_sources_shape (search : SearchFn) (llm : CompleteFn) (q : String)
    (d0 : Document) (s0 : ℚ) (rest : List (Document × ℚ))
    (hres : search q 3 = (d0, s0) :: rest)
    (hk : (search q 3).length ≤ 3)
    (hsort : List.Sorted (fun a b => b ≤ a) (((d0, s0) :: rest).map Prod.snd))
    (hgate : 7/10 ≤ s0) :
    (query_rag search llm q).sources
        = ((d0, s0) :: rest).map (fun p =>
            { content := truncPreview p.1.page_content
              score := p.2
              metadata := p.1.metadata }) ∧
    (query_rag search llm q).sources.length = min 3 (search q 3).length ∧
    List.Sorted (fun a b => b ≤ a)
      ((query_rag search llm q).sources.map SourceEntry.score) := by
  have hnot : ¬ s0 < 7/10 := not_lt.mpr hgate
  refine ⟨?_, ?_, ?_⟩
  · simp [query_rag, hres, hnot]
  · rw [hres] at hk ⊢
    simp only [query_rag, hres, if_neg hnot]
    simp only [List.length_map]
    omega
  · simp only [query_rag, hres, if_neg hnot]
    simpa [List.map_map, Function.comp] using hsort

/-- Witness: C2's hypotheses hold for a one-hit search scoring 0.9. -/
theorem answer_sources_shape_witness :
    hitSearch "who" 3 = [(sampleDoc, 9/10)] ∧
    (hitSearch "who" 3).length ≤ 3 ∧
    List.Sorted (fun a b => b ≤ a) ([(sampleDoc, (9:ℚ)/10)].map Prod.snd) ∧
    (7:ℚ)/10 ≤ 9/10 ∧
    (query_rag hitSearch idLlm "who").sources
        = [(sampleDoc, (9:ℚ)/10)].map (fun p =>
            { content := truncPreview p.1.page_content
              score := p.2
              metadata := p.1.metadata }) := by
  refine ⟨rfl, by decide, by simp, by norm_num, ?_⟩
  exact (answer_sources_shape hitSearch idLlm "who" sampleDoc (9/10) []
    rfl (by decide) (by simp) (by norm_num)).1

/-- C3: when the gate passes, both paths submit to the completion model
the prompt obtained by joining the retrieved chunk texts in retrieval
order with the fixed delimiter and substituting that context and the
original query into the fixed template, with no truncation of the
context; and the template splits into the stated head, context field,
middle, question field and tail. -/
theorem prompt_shape (search : SearchFn) (llm : CompleteFn) (q : String)
    (d0 : Document) (s0 : ℚ) (rest : List (Document × ℚ))
    (hres : search q 3 = (d0, s0) :: rest)
    (hgate : 7/10 ≤ s0) :
    (query_rag search llm q).completion
        = some { prompt := promptHead
                  ++ String.intercalate contextDelimiter
                      (((d0, s0) :: rest).map (fun p => p.1.page_content))
                  ++ promptMid ++ q ++ promptTail,
                 modelArg := some "gpt-3.5-turbo", temperature := some 0 } ∧
    (cli_main search llm q).completion
        = some { prompt := promptHead
                  ++ String.intercalate contextDelimiter
                      (((d0, s0) :: rest).map (fun p => p.1.page_content))
                  ++ promptMid ++ q ++ promptTail,
                 modelArg := none, temperature := none } ∧
    PROMPT_TEMPLATE
        = promptHead ++ "{context}" ++ promptMid ++ "{question}" ++ promptTail ∧
    contextDelimiter = "\n\n---\n\n" := by
  have hnot : ¬ s0 < 7/10 := not_lt.mpr hgate
  refine ⟨?_, ?_, by decide, rfl⟩
  · simp [query_rag, hres, hnot, formatPrompt]
  · simp [cli_main, hres, hnot, formatPrompt]

/-- Witness: C3's hypotheses hold for a one-hit search scoring 0.9. -/
theorem prompt_shape_witness :
    hitSearch "who" 3 = [(sampleDoc, 9/10)] ∧
    (7:ℚ)/10 ≤ 9/10 ∧
    (query_rag hitSearch idLlm "who").completion
        = some { prompt := promptHead
                  ++ String.intercalate contextDelimiter
                      ([(sampleDoc, (9:ℚ)/10)].map (fun p => p.1.page_content))
                  ++ promptMid ++ "who" ++ promptTail,
                 modelArg := some "gpt-3.5-turbo", temperature := some 0 } := by
  refine ⟨rfl, by norm_num, ?_⟩
  exact (prompt_shape hitSearch idLlm "who" sampleDoc (9/10) []
    rfl (by norm_num)).1

/-- C4 counterexample: on the batch CLI path an empty query string is
not rejected — the similarity search is issued with the empty query, and
(with an index whose best match scores 0.9) the completion call is even
made, refuting rejection at every entry point. -/
theorem cli_empty_query_not_rejected :
    (cli_main hitSearch idLlm "").searched = some ("", 3) ∧
    ((cli_main hitSearch idLlm "").completion).isSome = true ∧
    pyStrip "" = "" := by
  refine ⟨?_, ?_, by decide⟩
  · simp [cli_main, hitSearch]
    norm_num
  · simp [cli_main, hitSearch]
    norm_num

/-- C4 amended: an empty or whitespace-only query is rejected with a
400 error before any similarity search, with the completion API never
invoked, on the HTTP /query path only; the batch CLI performs no query
validation and always issues the similarity search with the query
as given. -/
theorem empty_query_validation (llm : CompleteFn) (st : AppState) (q : String)
    (hq : pyStrip q = "") :
    (query_document llm st q).searched = false ∧
    (query_document llm st q).completion = none ∧
    (∃ detail, (query_document llm st q).response = .error (400, detail)) ∧
    ∀ search, (cli_main search llm q).searched = some (q, 3) := by
  refine ⟨?_, ?_, ?_, ?_⟩
  · rcases st with ⟨_ | db, fn⟩ <;> simp [query_document, hq]
  · rcases st with ⟨_ | db, fn⟩ <;> simp [query_document, hq]
  · rcases st with ⟨_ | db, fn⟩
    · exact ⟨"No document uploaded. Please upload a document first.", rfl⟩
    · refine ⟨"Query cannot be empty", ?_⟩
      simp [query_document, hq]
  · intro search
    rcases hsq : search q 3 with _ | ⟨⟨d, s⟩, t⟩
    · simp [cli_main, hsq]
    · by_cases hs : s < 7/10 <;> simp [cli_main, hsq, hs]

/-- Witness: C4's amended hypothesis holds for the empty string. -/
theorem empty_query_validation_witness :
    pyStrip "" = "" ∧
    (query_document idLlm { current_db := none, current_filename := none } "").searched
        = false := by
  have h0 : pyStrip "" = "" := by decide
  refine ⟨h0, ?_⟩
  exact (empty_query_validation idLlm
    { current_db := none, current_filename := none } "" h0).1

/-- C5 counterexample: on the batch CLI path the completion model is
constructed with no temperature argument, so the submission runs at the
library default temperature 0.7, not at zero. -/
theorem cli_temperature_not_zero :
    ((cli_main hitSearch idLlm "q").completion.map CompletionCall.temperature)
        = some none ∧
    ((cli_main hitSearch idLlm "q").completion.map effectiveTemperature)
        = some (7/10) ∧
    (7/10 : ℚ) ≠ 0 := by
  refine ⟨?_, ?_, by norm_num⟩
  · simp [cli_main, hitSearch]
    norm_num
  · simp [cli_main, hitSearch, effectiveTemperature, chatOpenAIDefaultTemperature]
    norm_num

/-- C5 amended: every completion submission on the web path passes the
fixed temperature zero; every completion submission on the batch CLI
path passes no temperature argument and therefore runs at the library
default temperature (0.7), not zero. -/
theorem completion_temperature (search : SearchFn) (llm : CompleteFn)
    (q : String) :
    (∀ c, (query_rag search llm q).completion = some c →
      c.temperature = some 0 ∧ effectiveTemperature c = 0) ∧
    (∀ c, (cli_main search llm q).completion = some c →
      c.temperature = none ∧
      effectiveTemperature c = chatOpenAIDefaultTemperature) := by
  constructor
  · intro c hc
    rcases hsq : search q 3 with _ | ⟨⟨d, s⟩, t⟩
    · simp [query_rag, hsq] at hc
    · by_cases hs : s < 7/10
      · simp [query_rag, hsq, hs] at hc
      · simp [query_rag, hsq, hs] at hc
        simp [← hc, effectiveTemperature]
  · intro c hc
    rcases hsq : search q 3 with _ | ⟨⟨d, s⟩, t⟩
    · simp [cli_main, hsq] at hc
    · by_cases hs : s < 7/10
      · simp [cli_main, hsq, hs] at hc
      · simp [cli_main, hsq, hs] at hc
        simp [← hc, effectiveTemperature]

/-- Witness: C5's amended web-path hypothesis holds for a concrete
completion call issued by a one-hit search. -/
theorem completion_temperature_witness :
    ∃ c, (query_rag hitSearch idLlm "q").completion = some c ∧
      c.temperature = some 0 := by
  have hc : (query_rag hitSearch idLlm "q").completion
      = some { prompt := formatPrompt
                 (String.intercalate contextDelimiter [sampleDoc.page_content]) "q",
               modelArg := some "gpt-3.5-turbo", temperature := some 0 } := by
    simp [query_rag, hitSearch]
    norm_num
  exact ⟨_, hc, ((completion_temperature hitSearch idLlm "q").1 _ hc).1⟩

/-- C6: an upload whose filename does not end in .md
(case-insensitively) or whose content exceeds 2 MiB is rejected with a
400 error; no build is attempted, no scratch index directory is created,
and the app state (the current index) is unchanged. -/
theorem upload_validation (build : Builder) (st : AppState) (file : UploadFile)
    (h : pyEndsWith (pyLower file.filename) ".md" = false
        ∨ 2 * 1024 * 1024 < file.content.length) :
    (∃ detail, (upload_file build st file).response = .error (400, detail)) ∧
    (upload_file build st file).stateAfter = st ∧
    (upload_file build st file).buildAttempted = false ∧
    (upload_file build st file).tempDirCreated = false := by
  rcases h with h | h
  · refine ⟨⟨"Only Markdown (.md) files are supported", ?_⟩, ?_, ?_, ?_⟩ <;>
      simp [upload_file, h]
  · by_cases hext : pyEndsWith (pyLower file.filename) ".md" = false
    · refine ⟨⟨"Only Markdown (.md) files are supported", ?_⟩, ?_, ?_, ?_⟩ <;>
        simp [upload_file, hext]
    · refine ⟨⟨"File size must be under 2MB", ?_⟩, ?_, ?_, ?_⟩ <;>
        simp [upload_file, hext, h]

/-- Witness: C6's hypothesis holds for a .txt upload. -/
theorem upload_validation_witness :
    (pyEndsWith (pyLower "notes.txt") ".md" = false
        ∨ 2 * 1024 * 1024 < ([] : List Nat).length) ∧
    (upload_file okBuild { current_db := none, current_filename := none }
        { filename := "notes.txt", content := [] }).buildAttempted = false := by
  have h : (pyEndsWith (pyLower "notes.txt") ".md" = false
      ∨ 2 * 1024 * 1024 < ([] : List Nat).length) := Or.inl (by decide)
  exact ⟨h, (upload_validation okBuild
    { current_db := none, current_filename := none }
    { filename := "notes.txt", content := [] } h).2.2.1⟩

/-- C7: after `save_to_chroma`, the fixed index location holds exactly
the entries of the chunks just written — any previously persisted index
there was entirely removed first — and every other location is
untouched. -/
theorem save_to_chroma_rebuild (fs : FsState) (chunks : IndexEntries) :
    save_to_chroma fs chunks CHROMA_PATH = some chunks ∧
    ∀ q, q ≠ CHROMA_PATH → save_to_chroma fs chunks q = fs q := by
  constructor
  · rcases h : fs CHROMA_PATH with _ | e <;>
      simp [save_to_chroma, save_to_chroma_ops, h, applyOp]
  · intro q hq
    rcases h : fs CHROMA_PATH with _ | e <;>
      simp [save_to_chroma, save_to_chroma_ops, h, applyOp, hq]

/-- Witness: C7's side condition holds for a location other than the
fixed one, over a prior filesystem that already has an index. -/
theorem save_to_chroma_rebuild_witness :
    ("elsewhere" : String) ≠ CHROMA_PATH ∧
    save_to_chroma (fun p => if p = CHROMA_PATH then some [sampleDoc] else none)
        [] "elsewhere"
      = (fun p => if p = CHROMA_PATH then some [sampleDoc] else none) "elsewhere" := by
  have hq : ("elsewhere" : String) ≠ CHROMA_PATH := by decide
  exact ⟨hq, (save_to_chroma_rebuild
    (fun p => if p = CHROMA_PATH then some [sampleDoc] else none) []).2 "elsewhere" hq⟩

/-- C8 counterexample: a successful upload of a small .md file creates
the scratch index directory and returns without removing it, so not all
temporary on-disk artifacts are removed on every exit path. -/
theorem upload_tempdir_kept :
    (upload_file okBuild { current_db := none, current_filename := none }
        { filename := "doc.md", content := [] }).tempDirCreated = true ∧
    (upload_file okBuild { current_db := none, current_filename := none }
        { filename := "doc.md", content := [] }).tempDirRemoved = false := by
  constructor <;> decide

/-- C8 amended: on every exit path of the upload handler the temporary
uploaded file, once created, is removed before the handler returns; the
scratch index directory is never removed by the handler (on success it
backs the current index, on failure it is leaked). -/
theorem upload_cleanup (build : Builder) (st : AppState) (file : UploadFile) :
    ((upload_file build st file).tempFileCreated = true →
      (upload_file build st file).tempFileRemoved = true) ∧
    (upload_file build st file).tempDirRemoved = false := by
  by_cases hext : pyEndsWith (pyLower file.filename) ".md" = false
  · simp [upload_file, hext]
  · by_cases hsz : 2 * 1024 * 1024 < file.content.length
    · simp [upload_file, hext, hsz]
    · rcases hb : build file.content with db | msg <;>
        simp [upload_file, hext, hsz, hb]

/-- Witness: C8's amended implication fires on a concrete successful
upload whose temp file was created. -/
theorem upload_cleanup_witness :
    (upload_file okBuild { current_db := none, current_filename := none }
        { filename := "doc.md", content := [] }).tempFileCreated = true ∧
    (upload_file okBuild { current_db := none, current_filename := none }
        { filename := "doc.md", content := [] }).tempFileRemoved = true := by
  refine ⟨by decide, ?_⟩
  exact (upload_cleanup okBuild { current_db := none, current_filename := none }
    { filename := "doc.md", content := [] }).1 (by decide)

/-- C10: when a validated upload's database build raises, the handler
answers 500 and clears the process-wide current index, so every
subsequent query is rejected as no-document-uploaded even though the
state held a working index from an earlier successful upload. -/
theorem failed_upload_clears_index (build : Builder) (st : AppState)
    (file : UploadFile) (db : DB) (msg : String)
    (hdb : st.current_db = some db)
    (hext : pyEndsWith (pyLower file.filename) ".md" = true)
    (hsz : file.content.length ≤ 2 * 1024 * 1024)
    (hbuild : build file.content = .failure msg) :
    (upload_file build st file).response
        = .error (500, "Error processing file: " ++ msg) ∧
    (upload_file build st file).stateAfter.current_db = none ∧
    ∀ llm q, (query_document llm (upload_file build st file).stateAfter q).response
        = .error (400, "No document uploaded. Please upload a document first.") := by
  have hsz' : ¬ 2 * 1024 * 1024 < file.content.length := not_lt.mpr hsz
  refine ⟨?_, ?_, ?_⟩
  · simp [upload_file, hext, hsz', hbuild]
  · simp [upload_file, hext, hsz', hbuild]
  · intro llm q
    simp [upload_file, hext, hsz', hbuild, query_document]

/-- Witness: C10's hypotheses hold for a state holding a database and a
builder that raises on a small .md upload. -/
theorem failed_upload_clears_index_witness :
    ({ current_db := some { search := emptySearch }, current_filename := some "old.md" }
        : AppState).current_db = some { search := emptySearch } ∧
    pyEndsWith (pyLower "new.md") ".md" = true ∧
    ([] : List Nat).length ≤ 2 * 1024 * 1024 ∧
    failBuild [] = .failure "boom" ∧
    (upload_file failBuild
        { current_db := some { search := emptySearch }, current_filename := some "old.md" }
        { filename := "new.md", content := [] }).stateAfter.current_db = none := by
  refine ⟨rfl, by decide, by decide, rfl, ?_⟩
  exact (failed_upload_clears_index failBuild
    { current_db := some { search := emptySearch }, current_filename := some "old.md" }
    { filename := "new.md", content := [] } { search := emptySearch } "boom"
    rfl (by decide) (by decide) rfl).2.1

/-- C9: over a document of at least chunk_size characters, any two
consecutive chunks overlap by exactly chunk_overlap characters: the
earlier chunk is full-length, the later chunk starts chunk_size minus
chunk_overlap positions later, and the trailing chunk_overlap characters
of the earlier chunk are exactly the leading chunk_overlap characters of
the later one. -/
theorem chunker_overlap_exact (text : List Char)
    (h : chunk_size ≤ text.length)
    (i : Nat) (c1 c2 : Chunk)
    (h1 : (split_text text)[i]? = some c1)
    (h2 : (split_text text)[i+1]? = some c2) :
    c1.content.length = chunk_size ∧
    c2.start_index = c1.start_index + (chunk_size - chunk_overlap) ∧
    c1.content.drop (chunk_size - chunk_overlap) = c2.content.take chunk_overlap ∧
    (c2.content.take chunk_overlap).length = chunk_overlap := by
  by_cases hL : text.length ≤ chunk_size
  · exfalso
    simp [split_text, chunkStarts, hL] at h2
  · simp only [split_text, chunkStarts, if_neg hL, List.getElem?_map] at h1 h2
    simp only [chunk_size, chunk_overlap] at h1 h2 h hL ⊢
    set L := text.length with hLdef
    set d := (L - 200) / 800 with hd
    by_cases hin : i + 1 < d + 1
    · have hi : i < d + 1 := by omega
      simp only [List.getElem?_range hi, Option.map_some'] at h1
      simp only [List.getElem?_range hin, Option.map_some'] at h2
      obtain rfl := Option.some.inj h1
      obtain rfl := Option.some.inj h2
      have hdm : 800 * d ≤ L - 200 := by
        have := Nat.div_mul_le_self (L - 200) 800
        omega
      have hbound : (i + 1) * 800 ≤ L - 200 := by
        have : 800 * (i + 1) ≤ 800 * d := by omega
        omega
      have hstep : (i + 1) * 800 = i * 800 + 800 := by ring
      refine ⟨?_, ?_, ?_, ?_⟩
      · simp only [List.length_take, List.length_drop]
        omega
      · simp only [hstep]
      · simp only [List.drop_take, List.drop_drop, List.take_take, hstep]
        norm_num [Nat.add_comm]
      · simp only [List.length_take, List.length_drop]
        omega
    · exfalso
      have hnone : (List.range (d + 1))[i+1]? = none := by
        apply List.getElem?_eq_none
        simp only [List.length_range]
        omega
      rw [hnone] at h2
      exact Option.noConfusion h2

/-- Witness: C9's hypotheses hold on a 1001-character document, whose
two chunks are the first 1000 characters and the 201 characters starting
at offset 800. -/
theorem chunker_overlap_exact_witness :
    chunk_size ≤ (List.replicate 1001 'a').length ∧
    (split_text (List.replicate 1001 'a'))[0]?
        = some { content := List.replicate 1000 'a', start_index := 0 } ∧
    (split_text (List.replicate 1001 'a'))[0+1]?
        = some { content := List.replicate 201 'a', start_index := 800 } ∧
    (List.replicate 1000 'a').length = chunk_size := by
  have hlen : chunk_size ≤ (List.replicate 1001 'a').length := by
    rw [List.length_replicate]
    norm_num [chunk_size]
  have hr : (List.replicate 1001 'a').length = 1001 := List.length_replicate 1001 'a'
  have hcs : chunkStarts 1001 = [0, 800] := by decide
  have h1 : (split_text (List.replicate 1001 'a'))[0]?
      = some { content := List.replicate 1000 'a', start_index := 0 } := by
    rw [split_text, hr, hcs]
    rw [List.map_cons, List.getElem?_cons_zero, List.drop_replicate, List.take_replicate]
    norm_num [chunk_size]
  have h2 : (split_text (List.replicate 1001 'a'))[0+1]?
      = some { content := List.replicate 201 'a', start_index := 800 } := by
    rw [split_text, hr, hcs]
    rw [List.map_cons, List.map_cons, List.getElem?_cons_succ, List.getElem?_cons_zero,
      List.drop_replicate, List.take_replicate]
    norm_num [chunk_size]
  exact ⟨hlen, h1, h2,
    (chunker_overlap_exact (List.replicate 1001 'a') hlen 0 _ _ h1 h2).1⟩

end RagPipeline
